import Mathlib

/-!
Shallow embedding of the two operational Lambda handlers of the
TattooDirectory repository:

* `src/backend/src/handlers/secret-rotation/index.py` — the Secrets
  Manager four-step credential-rotation state machine, and
* `src/backend/src/handlers/rotate-nat-gateway-eip/index.py` — the NAT
  Gateway Elastic-IP rotation sequencer, together with the boilerplate
  variant `src/backend/src_boilerplate/operations/rotate_eip/rotate-nat-gateway-eip.py`.

External AWS services (the secret store, the OpenSearch domain, EC2 and
SNS) are modelled as explicit state and environment parameters; the
handlers' control flow is transcribed branch by branch from the Python
source.
-/

/-! ## Secret store model -/

/-- A secret payload: the decoded `SecretString` JSON object of string
fields (`opensearch_master_username`, `opensearch_master_password`, ...). -/
abbrev Payload := List (String × String)

/-- Modelled from the spec: the secret store state behind
`describeSecret` / `getSecretValue` / `putSecretValue` /
`updateVersionStage` (spec section 6; the store itself is an external AWS
service, not part of src/). `versions` is the `VersionIdsToStages`
mapping, kept in insertion order like a Python dict; `payloads` holds
each version's decoded `SecretString`. -/
structure SecretState where
  rotationEnabled : Bool
  versions : List (String × List String)
  payloads : List (String × Payload)
deriving Repr, DecidableEq

/-- Association-list update used for the store writes: replace the value
at `k` when the key is present, else append the binding. -/
def setAssoc {α : Type} (l : List (String × α)) (k : String) (v : α) : List (String × α) :=
  if l.any (fun p => p.1 == k) then
    l.map (fun p => if p.1 == k then (k, v) else p)
  else
    l ++ [(k, v)]

/-- Modelled from the spec: `getSecretValue(arn, stage, versionId?)`
(spec section 6) — returns the payload of the version carrying `stage`
(and matching `tok` when a version id is supplied), as the handler's
`get_secret_dict` consumes it. -/
def getSecretValue (s : SecretState) (stage : String) (tok : Option String) : Option Payload :=
  match tok with
  | some t =>
    match s.versions.lookup t with
    | some stages => if stages.contains stage then s.payloads.lookup t else none
    | none => none
  | none =>
    match s.versions.find? (fun p => p.2.contains stage) with
    | some p => s.payloads.lookup p.1
    | none => none

/-- A store-mutating call issued by the rotation handler. -/
inductive StoreOp where
  | putSecretValue (tok : String) (payload : Payload) (stages : List String)
  | updateVersionStage (stage : String) (moveTo : String) (removeFrom : Option String)
deriving Repr, DecidableEq

/-- Attach a stage label to a version's stage set (no duplicates). -/
def addStage (stage : String) (stages : List String) : List String :=
  if stages.contains stage then stages else stages ++ [stage]

/-- New stage set of one version entry under
`updateVersionStage stage moveTo removeFrom`. -/
def updateEntry (stage moveTo : String) (removeFrom : Option String)
    (p : String × List String) : List String :=
  if p.1 == moveTo then addStage stage p.2
  else if removeFrom == some p.1 then p.2.filter (fun st => st != stage)
  else p.2

/-- Modelled from the spec: the store effect of
`updateVersionStage(arn, stage, moveToVersion, removeFromVersion)` (spec
section 6) — one atomic operation that attaches `stage` to `moveTo` and
detaches it from `removeFrom`. -/
def applyUpdateStage (s : SecretState) (stage moveTo : String)
    (removeFrom : Option String) : SecretState :=
  { s with versions := s.versions.map (fun p => (p.1, updateEntry stage moveTo removeFrom p)) }

/-- Modelled from the spec: the store effect of
`putSecretValue(arn, token, payload, stages)` (spec section 6) — writes
version `tok` carrying `stages` with the given payload. -/
def applyPut (s : SecretState) (tok : String) (payload : Payload)
    (stages : List String) : SecretState :=
  { s with versions := setAssoc s.versions tok stages,
           payloads := setAssoc s.payloads tok payload }

/-! ## Secret-rotation handler -/

/-- Environment for the secret-rotation handler's external collaborators:
the freshly generated password (the draw made by
`generate_complex_password`), the outcome of the OpenSearch
`update_domain_config` control-plane call, the outcome of the
authenticated `client.info()` handshake, and the `OPENSEARCH_ENDPOINT`
environment variable. -/
structure RotEnv where
  newPassword : String
  updateDomainOk : Bool
  authOk : Bool
  endpoint : String
deriving Repr, DecidableEq

/-- The distinct failures raised by the rotation handler (each a
`ValueError` with its own message in the source). -/
inductive RotError where
  | rotationNotEnabled
  | unknownVersion
  | versionNotPending
  | invalidStep (step : String)
  | upstream (msg : String)
deriving Repr, DecidableEq

/-- Result of one handler invocation: the outcome (normal return, or the
raised error), the secret store afterwards, the list of store-mutating
calls made, and the number of notification publishes performed (the
secret-rotation source contains no notification publish call at all). -/
structure StepResult where
  result : Except RotError Unit
  state : SecretState
  ops : List StoreOp
  publishes : Nat

/-- `create_secret` (index.py lines 175-207): fetch the AWSCURRENT
payload, overwrite `opensearch_master_password` with the freshly
generated password, and write it back as a new AWSPENDING version under
the token. -/
def create_secret (env : RotEnv) (s : SecretState) (tok : String) : StepResult :=
  match getSecretValue s "AWSCURRENT" none with
  | none => ⟨.error (.upstream "get_secret_value AWSCURRENT failed"), s, [], 0⟩
  | some current =>
    let newPayload := setAssoc current "opensearch_master_password" env.newPassword
    ⟨.ok (), applyPut s tok newPayload ["AWSPENDING"],
      [.putSecretValue tok newPayload ["AWSPENDING"]], 0⟩

/-- `set_secret` (index.py lines 238-279): fetch the AWSPENDING payload
and push the new password to the OpenSearch domain configuration; only
store reads, no store writes. -/
def set_secret (env : RotEnv) (s : SecretState) (tok : String) : StepResult :=
  match getSecretValue s "AWSPENDING" (some tok) with
  | none => ⟨.error (.upstream "get_secret_value AWSPENDING failed"), s, [], 0⟩
  | some pending =>
    match pending.lookup "opensearch_master_password" with
    | none => ⟨.error (.upstream "KeyError: opensearch_master_password"), s, [], 0⟩
    | some _ =>
      if env.updateDomainOk then ⟨.ok (), s, [], 0⟩
      else ⟨.error (.upstream "update_domain_config failed"), s, [], 0⟩

/-- Python truthiness of an optional string field, as `all([...])` sees
it: `None` and the empty string are falsy. -/
def present : Option String → Bool
  | some s => !s.isEmpty
  | none => false

/-- `test_secret` (index.py lines 282-333): fetch the AWSPENDING payload
and attempt an authenticated `info()` call against the OpenSearch
endpoint; a missing password, username or endpoint is a hard failure;
only store reads, no store writes. -/
def test_secret (env : RotEnv) (s : SecretState) (tok : String) : StepResult :=
  match getSecretValue s "AWSPENDING" (some tok) with
  | none => ⟨.error (.upstream "get_secret_value AWSPENDING failed"), s, [], 0⟩
  | some pending =>
    let password := pending.lookup "opensearch_master_password"
    let username := pending.lookup "opensearch_master_username"
    if !(present password && present username && !env.endpoint.isEmpty) then
      ⟨.error (.upstream "Secret is missing required values for testing"), s, [], 0⟩
    else if env.authOk then ⟨.ok (), s, [], 0⟩
    else ⟨.error (.upstream "authentication against OpenSearch failed"), s, [], 0⟩

/-- `finish_secret` (index.py lines 336-377): scan the version/stage
mapping for the first version holding AWSCURRENT; if it is the token
itself, return without touching the store; otherwise (also when no
version holds AWSCURRENT, leaving `current_version = None`) issue the
single `update_secret_version_stage` call moving AWSCURRENT to the
token and removing it from the found holder. -/
def finish_secret (s : SecretState) (tok : String) : StepResult :=
  match s.versions.find? (fun p => p.2.contains "AWSCURRENT") with
  | some p =>
    if p.1 == tok then ⟨.ok (), s, [], 0⟩
    else
      ⟨.ok (), applyUpdateStage s "AWSCURRENT" tok (some p.1),
        [.updateVersionStage "AWSCURRENT" tok (some p.1)], 0⟩
  | none =>
    ⟨.ok (), applyUpdateStage s "AWSCURRENT" tok none,
      [.updateVersionStage "AWSCURRENT" tok none], 0⟩

/-- One rotation invocation's event: `SecretId`, `ClientRequestToken`
and `Step`. -/
structure Request where
  secretId : String
  clientRequestToken : String
  step : String
deriving Repr, DecidableEq

/-- `lambda_handler` (index.py lines 112-172): validate the rotation
preconditions in order (rotation enabled, token known, AWSCURRENT
short-circuit, AWSPENDING required), then dispatch on the step name; an
unrecognized step fails with the invalid-step error. -/
def lambda_handler (env : RotEnv) (s : SecretState) (req : Request) : StepResult :=
  if !s.rotationEnabled then ⟨.error .rotationNotEnabled, s, [], 0⟩
  else
    match s.versions.lookup req.clientRequestToken with
    | none => ⟨.error .unknownVersion, s, [], 0⟩
    | some stages =>
      if stages.contains "AWSCURRENT" then ⟨.ok (), s, [], 0⟩
      else if !stages.contains "AWSPENDING" then ⟨.error .versionNotPending, s, [], 0⟩
      else if req.step == "createSecret" then create_secret env s req.clientRequestToken
      else if req.step == "setSecret" then set_secret env s req.clientRequestToken
      else if req.step == "testSecret" then test_secret env s req.clientRequestToken
      else if req.step == "finishSecret" then finish_secret s req.clientRequestToken
      else ⟨.error (.invalidStep req.step), s, [], 0⟩

/-! ## Password generator -/

/-- `string.ascii_lowercase`. -/
def lowerChars : List Char := "abcdefghijklmnopqrstuvwxyz".toList

/-- `string.ascii_uppercase`. -/
def upperChars : List Char := "ABCDEFGHIJKLMNOPQRSTUVWXYZ".toList

/-- `string.digits`. -/
def digitChars : List Char := "0123456789".toList

/-- The restricted symbol alphabet of `generate_complex_password`
(index.py line 227), chosen so that quote, backslash, at-sign and slash
never appear. -/
def symbolChars : List Char := "!#$%&()*+,-.:;<=>?[]^_\x7b|\x7d~".toList

/-- `all_chars = lower + upper + digits + symbols` (index.py line 228). -/
def allChars : List Char := lowerChars ++ upperChars ++ digitChars ++ symbolChars

/-- `random.choice(l)`: an arbitrary element of `l`, selected here by an
externally supplied draw `i` reduced modulo the alphabet size. -/
def randomChoice : List Char → Nat → Char
  | [], _ => '?'
  | c :: cs, i => (c :: cs).get ⟨i % (cs.length + 1), Nat.mod_lt _ (Nat.succ_pos _)⟩

/-- `generate_complex_password` (index.py lines 210-235): reject lengths
below 8; otherwise seed one character from each required class, fill the
remaining `length - 4` positions from the full alphabet, and shuffle.
The random draws are supplied by `draws`, and `random.shuffle` by the
permutation `shuffle`. -/
def generate_complex_password (length : Nat) (draws : Nat → Nat)
    (shuffle : List Char → List Char) : Except String (List Char) :=
  if length < 8 then .error "Password length must be at least 8 characters."
  else
    let seeded := [randomChoice lowerChars (draws 0), randomChoice upperChars (draws 1),
      randomChoice digitChars (draws 2), randomChoice symbolChars (draws 3)]
    let pw := seeded ++ (List.range (length - 4)).map (fun k => randomChoice allChars (draws (4 + k)))
    .ok (shuffle pw)

/-! ## String containment (Python's `in` on strings) -/

/-- Whether `needle` occurs at the head of `hay`. -/
def charsStartWith : List Char → List Char → Bool
  | [], _ => true
  | _ :: _, [] => false
  | a :: as, b :: bs => a == b && charsStartWith as bs

/-- Whether `needle` occurs somewhere inside `hay`. -/
def charsContain (needle : List Char) : List Char → Bool
  | [] => needle.isEmpty
  | c :: rest => charsStartWith needle (c :: rest) || charsContain needle rest

/-- Python's substring test `needle in hay`. -/
def strContainsStr (hay needle : String) : Bool :=
  charsContain needle.data hay.data

/-- Python's `str.lower()`, character by character. -/
def pyLower (s : String) : String := ⟨s.data.map Char.toLower⟩

/-! ## Sensitive-field redaction (`scrub_sensitive_data`) -/

/-- A Python value as the scrubber distinguishes it: a dict is recursed
into, anything else (modelled as an opaque string atom) is passed or
redacted wholesale. -/
inductive PyVal where
  | str (s : String) : PyVal
  | dict (fields : List (String × PyVal)) : PyVal
deriving Repr

/-- The `sensitive_keys` set of
`rotate-nat-gateway-eip/index.py` lines 85-88. -/
def eipSensitiveKeys : List String :=
  ["password", "secret", "key", "token", "credential",
   "allocation_id", "network_interface_id"]

/-- The `sensitive_keys` set of `secret-rotation/index.py` lines 82-86. -/
def rotationSensitiveKeys : List String :=
  ["password", "secret", "key", "token", "credential", "auth",
   "opensearch_master_password", "opensearch_master_username",
   "master_user_password", "secretstring", "secretvalue"]

/-- `any(sensitive_key in key.lower() for sensitive_key in sensitive_keys)`. -/
def isSensitiveKey (sens : List String) (k : String) : Bool :=
  sens.any (fun sk => strContainsStr (pyLower k) sk)

mutual

/-- `scrub_sensitive_data` (rotate-nat-gateway-eip/index.py lines
72-99): a non-dict input is returned unchanged; in a dict, a key
containing a sensitive family name is replaced by the redaction marker,
a dict value under a non-sensitive key is scrubbed recursively, and any
other value is kept. -/
def scrubVal (sens : List String) : PyVal → PyVal
  | .str s => .str s
  | .dict fields => .dict (scrubFields sens fields)

/-- The per-entry loop body of `scrub_sensitive_data`. -/
def scrubFields (sens : List String) : List (String × PyVal) → List (String × PyVal)
  | [] => []
  | (k, v) :: rest =>
    (if isSensitiveKey sens k then (k, PyVal.str "[REDACTED]")
     else
       match v with
       | .dict d => (k, scrubVal sens (.dict d))
       | .str s => (k, PyVal.str s)) :: scrubFields sens rest

end

/-! ## NAT Gateway EIP rotation -/

/-- One entry of `NatGatewayAddresses`. -/
structure EipAddress where
  networkInterfaceId : String
  allocationId : String
deriving Repr, DecidableEq

/-- One entry of `describe_nat_gateways`'s `NatGateways` list. -/
structure NatGateway where
  natGatewayId : String
  addresses : List EipAddress
deriving Repr, DecidableEq

/-- The reply of `allocate_address(Domain='vpc')`. -/
structure EipAlloc where
  allocationId : String
  publicIp : String
deriving Repr, DecidableEq

/-- Environment of one EIP-rotation invocation: configuration values and
the outcomes of the three EC2 calls — `describe_nat_gateways` (the
matching gateways, ordered as the store returns them), `allocate_address`
and `associate_address`; each `Except.error` is an exception raised by
the EC2 client. -/
structure EipEnv where
  tagValue : String
  correlationId : String
  timestamp : String
  describeRes : Except String (List NatGateway)
  allocateRes : Except String EipAlloc
  associateRes : Except String Unit
deriving Repr

/-- The try-block of the EIP `lambda_handler`
(rotate-nat-gateway-eip/index.py lines 139-231): find the gateway, take
its first address association, allocate and associate a new EIP. A
success carries (gateway id, new public ip, old allocation id, new
allocation id); a failure carries the exception message together with
the value of the `old_allocation_id` local at the time of the raise. -/
def eipBody (env : EipEnv) : Except (String × Option String) (String × String × String × String) :=
  match env.describeRes with
  | .error e => .error (e, none)
  | .ok gws =>
    match gws with
    | [] => .error ("No NAT Gateway found with tag Name=" ++ env.tagValue, none)
    | ngw :: _ =>
      match ngw.addresses with
      | [] => .error ("NAT Gateway " ++ ngw.natGatewayId ++ " has no associated EIPs", none)
      | oldAssoc :: _ =>
        match env.allocateRes with
        | .error e => .error (e, some oldAssoc.allocationId)
        | .ok alloc =>
          match env.associateRes with
          | .error e => .error (e, some oldAssoc.allocationId)
          | .ok _ => .ok (ngw.natGatewayId, alloc.publicIp, oldAssoc.allocationId, alloc.allocationId)

/-- Structured result of one EIP-rotation invocation: the status code,
the JSON body fields, and the SNS publishes made (subject, message). -/
structure EipResult where
  statusCode : Nat
  body : List (String × String)
  publishes : List (String × String)
deriving Repr, DecidableEq

/-- The success notification text of the hardened handler (index.py
lines 204-209); allocation ids are replaced by the redaction marker (a
leading emoji marker in the source literal is elided here). -/
def eipSuccessMessage (gwId newIp : String) : String :=
  "SUCCESS: Rotated EIP for NAT Gateway " ++ gwId ++ ".\n" ++
  "New Public IP: " ++ newIp ++ " (Allocation ID: [REDACTED])\n" ++
  "Old Allocation ID has been disassociated and is available for rollback. " ++
  "It has NOT been released."

/-- The failure text built in the except-block (index.py lines 233-246):
the exception message wrapped, plus the manual-cleanup notice when
`old_allocation_id` had already been captured. -/
def eipErrorMessage (e : String) (old : Option String) : String :=
  let base := "Failed to rotate EIP: " ++ e
  match old with
  | some _ => base ++ ("\n\nACTION REQUIRED: The old EIP was identified but the process failed. " ++
      "Please manually investigate the state of the NAT Gateway and EIPs.")
  | none => base

/-- The EIP `lambda_handler` (rotate-nat-gateway-eip/index.py lines
124-255): on success publish once and return a 200 result whose body
carries message, correlation id, gateway id and new public ip; on any
exception publish once and return the 500 result of
`create_error_response` — the handler never re-raises. -/
def lambda_handler_eip (env : EipEnv) : EipResult :=
  match eipBody env with
  | .ok (gwId, newIp, _oldAlloc, _newAlloc) =>
    { statusCode := 200,
      body := [("message", "NAT Gateway EIP rotation completed successfully"),
               ("correlationId", env.correlationId),
               ("natGatewayId", gwId),
               ("newPublicIp", newIp)],
      publishes := [("SUCCESS: NAT Gateway EIP Rotated", eipSuccessMessage gwId newIp)] }
  | .error (e, old) =>
    let msg := eipErrorMessage e old
    { statusCode := 500,
      body := [("error", msg),
               ("correlationId", env.correlationId),
               ("timestamp", env.timestamp)],
      publishes := [("FAILED: NAT Gateway EIP Rotation", msg)] }

/-- The try-block of the boilerplate variant
(src_boilerplate/operations/rotate_eip/rotate-nat-gateway-eip.py lines
22-57); identical staging to `eipBody` except for a trailing period in
the no-addresses message. -/
def eipBodyBoiler (env : EipEnv) : Except (String × Option String) (String × String × String × String) :=
  match env.describeRes with
  | .error e => .error (e, none)
  | .ok gws =>
    match gws with
    | [] => .error ("No NAT Gateway found with tag Name=" ++ env.tagValue, none)
    | ngw :: _ =>
      match ngw.addresses with
      | [] => .error ("NAT Gateway " ++ ngw.natGatewayId ++ " has no associated EIPs.", none)
      | oldAssoc :: _ =>
        match env.allocateRes with
        | .error e => .error (e, some oldAssoc.allocationId)
        | .ok alloc =>
          match env.associateRes with
          | .error e => .error (e, some oldAssoc.allocationId)
          | .ok _ => .ok (ngw.natGatewayId, alloc.publicIp, oldAssoc.allocationId, alloc.allocationId)

/-- The success notification text of the boilerplate variant (lines
64-69): it interpolates both the new and the old allocation id (leading
emoji marker elided). Association is kept to the right of each
interpolated id so that containment lemmas apply directly. -/
def boilerSuccessMessage (gwId newIp newAlloc oldAlloc : String) : String :=
  "SUCCESS: Rotated EIP for NAT Gateway " ++ gwId ++ ".\nNew Public IP: " ++ newIp ++
    " (Allocation ID: " ++ (newAlloc ++ (")\nOld Allocation ID " ++ (oldAlloc ++
    " has been disassociated and is available for rollback. It has NOT been released.")))

/-- The failure text of the boilerplate variant (lines 75-81). -/
def boilerErrorMessage (e : String) (old : Option String) : String :=
  let base := "FAILED to rotate EIP: " ++ e
  match old with
  | some o => base ++ "\n\nACTION REQUIRED: The old EIP (" ++ o ++ ") was not released. " ++
      "Please manually investigate the state of the NAT Gateway and EIPs."
  | none => base

/-- The boilerplate `lambda_handler` (lines 16-84): same sequence, but
the success body is the full message and the notifications interpolate
the allocation ids. -/
def lambda_handler_boiler (env : EipEnv) : EipResult :=
  match eipBodyBoiler env with
  | .ok (gwId, newIp, oldAlloc, newAlloc) =>
    let message := boilerSuccessMessage gwId newIp newAlloc oldAlloc
    { statusCode := 200,
      body := [("message", message)],
      publishes := [("SUCCESS: NAT Gateway EIP Rotated", message)] }
  | .error (e, old) =>
    let msg := boilerErrorMessage e old
    { statusCode := 500,
      body := [("error", msg)],
      publishes := [("FAILED: NAT Gateway EIP Rotation", msg)] }

/-! ## Derived notions and concrete fixtures -/

/-- Number of versions currently holding the AWSCURRENT stage label. -/
def countCurrent (s : SecretState) : Nat :=
  s.versions.countP (fun p => p.2.contains "AWSCURRENT")

/-- Wrap a value one level deep under a non-sensitive key. -/
def nestWrap (v : PyVal) : PyVal := .dict [("nested", v)]

/-- Wrap a value `n` levels deep under non-sensitive keys. -/
def nestN : Nat → PyVal → PyVal
  | 0, v => v
  | n + 1, v => nestWrap (nestN n v)

/-- A sample secret payload. -/
def payloadEx : Payload :=
  [("opensearch_master_username", "admin"), ("opensearch_master_password", "oldpw")]

/-- A store mid-rotation: `v1` is AWSCURRENT, `v2` is AWSPENDING. -/
def sPend : SecretState :=
  ⟨true, [("v1", ["AWSCURRENT"]), ("v2", ["AWSPENDING"])], [("v1", payloadEx), ("v2", payloadEx)]⟩

/-- A store with rotation disabled. -/
def sDisabled : SecretState := ⟨false, [("v2", ["AWSPENDING"])], []⟩

/-- A store whose only version carries neither AWSCURRENT nor AWSPENDING. -/
def sNeither : SecretState := ⟨true, [("v2", ["AWSPREVIOUS"])], []⟩

/-- A store where `v2` is AWSPENDING and no version holds AWSCURRENT. -/
def sNoCurrent : SecretState := ⟨true, [("v2", ["AWSPENDING"])], [("v2", payloadEx)]⟩

/-- A benign environment for the rotation handler. -/
def envEx : RotEnv := ⟨"NewPw1!", true, true, "search.example.com"⟩

/-- The example object of the redaction claim. -/
def scrubSampleObj : PyVal :=
  .dict [("password", .str "hunter2"), ("allocation_id", .str "eipalloc-old123"),
         ("public_data", .str "visible")]

/-- Its expected scrubbed form. -/
def scrubSampleScrubbed : PyVal :=
  .dict [("password", .str "[REDACTED]"), ("allocation_id", .str "[REDACTED]"),
         ("public_data", .str "visible")]

/-- A NAT gateway with one address association. -/
def gwEx : NatGateway := ⟨"nat-12345", [⟨"eni-67890", "eipalloc-old123"⟩]⟩

/-- An EIP environment on which every EC2 call succeeds. -/
def envEipOk : EipEnv :=
  ⟨"tatdir", "cid-1", "ts-1", .ok [gwEx], .ok ⟨"eipalloc-new456", "203.0.113.1"⟩, .ok ()⟩

/-- An EIP environment with zero matching gateways. -/
def envEipNoGw : EipEnv :=
  ⟨"tatdir", "cid-1", "ts-1", .ok [], .ok ⟨"eipalloc-new456", "203.0.113.1"⟩, .ok ()⟩

/-- An EIP environment failing at the associate step, after the old
allocation id has been captured. -/
def envEipAssocFail : EipEnv :=
  ⟨"tatdir", "cid-1", "ts-1", .ok [gwEx], .ok ⟨"eipalloc-new456", "203.0.113.1"⟩,
    .error "associate_address failed"⟩

/-! ## Helper lemmas: association lists and stage sets -/

theorem contains_iff_mem (l : List String) (a : String) : l.contains a = true ↔ a ∈ l := by
  simp [List.contains, List.elem_iff]

theorem lookup_mem {α : Type} {l : List (String × α)} {k : String} {v : α}
    (h : l.lookup k = some v) : (k, v) ∈ l := by
  induction l with
  | nil => simp [List.lookup] at h
  | cons p t ih =>
    rw [show p = (p.1, p.2) from rfl, List.lookup_cons] at h
    by_cases hk : k = p.1
    · subst hk
      simp at h
      subst h
      exact List.mem_cons_self _ _
    · have : (k == p.1) = false := beq_false_of_ne hk
      rw [this] at h
      exact List.mem_cons_of_mem _ (ih h)

theorem mem_lookup_nodup {α : Type} {l : List (String × α)}
    (hn : (l.map Prod.fst).Nodup) {k : String} {v : α}
    (hm : (k, v) ∈ l) : l.lookup k = some v := by
  induction l with
  | nil => simp at hm
  | cons p t ih =>
    rw [List.map_cons, List.nodup_cons] at hn
    rcases List.mem_cons.mp hm with h | h
    · rw [show p = (k, v) from h.symm, List.lookup_cons]
      simp
    · have hk : k ≠ p.1 := by
        intro hkeq
        exact hn.1 (hkeq ▸ List.mem_map_of_mem Prod.fst h)
      rw [show p = (p.1, p.2) from rfl, List.lookup_cons, beq_false_of_ne hk]
      exact ih hn.2 h

theorem lookup_map_entry {α β : Type} (f : String × α → β) {l : List (String × α)}
    {k : String} {v : α} (h : l.lookup k = some v) :
    (l.map (fun p => (p.1, f p))).lookup k = some (f (k, v)) := by
  induction l with
  | nil => simp [List.lookup] at h
  | cons p t ih =>
    rw [show p = (p.1, p.2) from rfl, List.lookup_cons] at h
    rw [List.map_cons, List.lookup_cons]
    by_cases hk : k = p.1
    · subst hk
      simp at h ⊢
      rw [← h]
    · rw [beq_false_of_ne hk] at h ⊢
      exact ih h

theorem map_fst_map_entry {α β : Type} (f : String × α → β) (l : List (String × α)) :
    (l.map (fun p => (p.1, f p))).map Prod.fst = l.map Prod.fst := by
  simp [List.map_map]

theorem addStage_contains (st : String) (l : List String) :
    (addStage st l).contains st = true := by
  unfold addStage
  split
  · assumption
  · rw [contains_iff_mem]
    exact List.mem_append_right _ (List.mem_singleton.mpr rfl)

theorem filter_ne_not_contains (l : List String) (st : String) :
    (l.filter (fun x => x != st)).contains st = false := by
  rw [Bool.eq_false_iff]
  intro hc
  have := (contains_iff_mem _ _).mp hc
  have := (List.mem_filter.mp this).2
  simp at this

theorem two_le_countP {α : Type} {l : List α} {p : α → Bool} {a b : α}
    (ha : a ∈ l) (hb : b ∈ l) (hne : a ≠ b)
    (hpa : p a = true) (hpb : p b = true) : 2 ≤ l.countP p := by
  induction l with
  | nil => simp at ha
  | cons c t ih =>
    rw [List.countP_cons]
    rcases List.mem_cons.mp ha with hac | hat
    · rcases List.mem_cons.mp hb with hbc | hbt
      · exact absurd (hac.trans hbc.symm) hne
      · have h1 : 0 < t.countP p := List.countP_pos_iff.mpr ⟨b, hbt, hpb⟩
        have hpc : p c = true := hac ▸ hpa
        rw [if_pos hpc]
        omega
    · rcases List.mem_cons.mp hb with hbc | hbt
      · have h1 : 0 < t.countP p := List.countP_pos_iff.mpr ⟨a, hat, hpa⟩
        have hpc : p c = true := hbc ▸ hpb
        rw [if_pos hpc]
        omega
      · have := ih hat hbt
        omega

theorem countP_eq_one_of_key {α : Type} {l : List (String × α)} {q : String × α → Bool}
    {k : String} (hn : (l.map Prod.fst).Nodup)
    (hex : ∃ v, (k, v) ∈ l ∧ q (k, v) = true)
    (hall : ∀ p ∈ l, q p = true → p.1 = k) : l.countP q = 1 := by
  induction l with
  | nil => obtain ⟨v, hv, _⟩ := hex; simp at hv
  | cons c t ih =>
    rw [List.map_cons, List.nodup_cons] at hn
    rw [List.countP_cons]
    by_cases hqc : q c = true
    · have hck : c.1 = k := hall c (List.mem_cons_self _ _) hqc
      have ht0 : t.countP q = 0 := by
        rw [List.countP_eq_zero]
        intro p hp hqp
        have : p.1 = k := hall p (List.mem_cons_of_mem _ hp) hqp
        exact hn.1 (hck ▸ this ▸ List.mem_map_of_mem Prod.fst hp)
      rw [ht0, if_pos hqc]
    · obtain ⟨v, hv, hqv⟩ := hex
      rcases List.mem_cons.mp hv with hvc | hvt
      · rw [← hvc] at hqc
        exact absurd hqv hqc
      · rw [if_neg hqc, Nat.add_zero]
        exact ih hn.2 ⟨v, hvt, hqv⟩ (fun p hp => hall p (List.mem_cons_of_mem _ hp))

/-! ## Helper lemmas: substring containment -/

theorem charsStartWith_append {n xs : List Char} (ys : List Char)
    (h : charsStartWith n xs = true) : charsStartWith n (xs ++ ys) = true := by
  induction n generalizing xs with
  | nil => rfl
  | cons a as ih =>
    cases xs with
    | nil => simp [charsStartWith] at h
    | cons b bs =>
      unfold charsStartWith at h ⊢
      rw [Bool.and_eq_true] at h
      rw [List.cons_append, Bool.and_eq_true]
      exact ⟨h.1, ih h.2⟩

theorem charsStartWith_self (n t : List Char) : charsStartWith n (n ++ t) = true := by
  induction n with
  | nil => rfl
  | cons a as ih =>
    unfold charsStartWith
    rw [List.cons_append, Bool.and_eq_true]
    exact ⟨beq_self_eq_true a, ih⟩

theorem charsContain_append_right {n ys : List Char} (xs : List Char)
    (h : charsContain n ys = true) : charsContain n (xs ++ ys) = true := by
  induction xs with
  | nil => exact h
  | cons c xt ih =>
    rw [List.cons_append]
    unfold charsContain
    rw [ih]
    exact Bool.or_true _

theorem charsContain_self_append (n t : List Char) : charsContain n (n ++ t) = true := by
  cases n with
  | nil =>
    cases t with
    | nil => rfl
    | cons c ct => rfl
  | cons a as =>
    rw [List.cons_append]
    unfold charsContain
    have h := charsStartWith_self (a :: as) t
    rw [List.cons_append] at h
    rw [h]
    rfl

/-! ## Helper lemmas: frame facts about the rotation steps -/

theorem set_secret_frame (env : RotEnv) (s : SecretState) (tok : String) :
    (set_secret env s tok).state = s ∧ (set_secret env s tok).ops = [] ∧
    (set_secret env s tok).publishes = 0 := by
  unfold set_secret
  split
  · exact ⟨rfl, rfl, rfl⟩
  · split
    · exact ⟨rfl, rfl, rfl⟩
    · split
      · exact ⟨rfl, rfl, rfl⟩
      · exact ⟨rfl, rfl, rfl⟩

theorem test_secret_frame (env : RotEnv) (s : SecretState) (tok : String) :
    (test_secret env s tok).state = s ∧ (test_secret env s tok).ops = [] ∧
    (test_secret env s tok).publishes = 0 := by
  unfold test_secret
  split
  · exact ⟨rfl, rfl, rfl⟩
  · dsimp only
    split
    · exact ⟨rfl, rfl, rfl⟩
    · split
      · exact ⟨rfl, rfl, rfl⟩
      · exact ⟨rfl, rfl, rfl⟩

theorem create_secret_publishes (env : RotEnv) (s : SecretState) (tok : String) :
    (create_secret env s tok).publishes = 0 := by
  unfold create_secret
  split
  · rfl
  · rfl

theorem finish_secret_publishes (s : SecretState) (tok : String) :
    (finish_secret s tok).publishes = 0 := by
  unfold finish_secret
  split
  · split
    · rfl
    · rfl
  · rfl

theorem lambda_handler_publishes (env : RotEnv) (s : SecretState) (req : Request) :
    (lambda_handler env s req).publishes = 0 := by
  unfold lambda_handler
  split
  · rfl
  · split
    · rfl
    · split
      · rfl
      · split
        · rfl
        · split
          · exact create_secret_publishes env s req.clientRequestToken
          · split
            · exact (set_secret_frame env s req.clientRequestToken).2.2
            · split
              · exact (test_secret_frame env s req.clientRequestToken).2.2
              · split
                · exact finish_secret_publishes s req.clientRequestToken
                · rfl

/-! ## Claim theorems -/

/-- C1: the rotation handler validates its preconditions in order, each
failing with its own distinct error — rotation not enabled, then unknown
version token, then a token carrying neither AWSCURRENT nor AWSPENDING,
and, once dispatch is reached, an unrecognized step name — and in every
one of these failure cases the store state is unchanged, no
store-mutating call is issued, and nothing is published. -/
theorem c1_preconditions_in_order (env : RotEnv) (s : SecretState) (req : Request) :
    (s.rotationEnabled = false →
      lambda_handler env s req = ⟨.error .rotationNotEnabled, s, [], 0⟩) ∧
    (s.rotationEnabled = true →
      s.versions.lookup req.clientRequestToken = none →
      lambda_handler env s req = ⟨.error .unknownVersion, s, [], 0⟩) ∧
    (∀ stages, s.rotationEnabled = true →
      s.versions.lookup req.clientRequestToken = some stages →
      stages.contains "AWSCURRENT" = false →
      stages.contains "AWSPENDING" = false →
      lambda_handler env s req = ⟨.error .versionNotPending, s, [], 0⟩) ∧
    (∀ stages, s.rotationEnabled = true →
      s.versions.lookup req.clientRequestToken = some stages →
      stages.contains "AWSCURRENT" = false →
      stages.contains "AWSPENDING" = true →
      req.step ≠ "createSecret" → req.step ≠ "setSecret" →
      req.step ≠ "testSecret" → req.step ≠ "finishSecret" →
      lambda_handler env s req = ⟨.error (.invalidStep req.step), s, [], 0⟩) := by
  refine ⟨?_, ?_, ?_, ?_⟩
  · intro h
    simp only [lambda_handler, h]
    rfl
  · intro h hlk
    simp only [lambda_handler, h, hlk]
    rfl
  · intro stages h hlk hcur hpend
    simp only [lambda_handler, h, hlk, hcur, hpend]
    rfl
  · intro stages h hlk hcur hpend h1 h2 h3 h4
    simp only [lambda_handler, h, hlk, hcur, hpend,
      beq_false_of_ne h1, beq_false_of_ne h2, beq_false_of_ne h3, beq_false_of_ne h4]
    rfl

/-- C1 witness: the four failure branches observed on concrete stores. -/
theorem c1_preconditions_in_order_witness :
    (sDisabled.rotationEnabled = false ∧
      lambda_handler envEx sDisabled ⟨"arn-s", "v2", "createSecret"⟩ =
        ⟨.error .rotationNotEnabled, sDisabled, [], 0⟩) ∧
    (sPend.versions.lookup "v9" = none ∧
      lambda_handler envEx sPend ⟨"arn-s", "v9", "createSecret"⟩ =
        ⟨.error .unknownVersion, sPend, [], 0⟩) ∧
    (sNeither.versions.lookup "v2" = some ["AWSPREVIOUS"] ∧
      lambda_handler envEx sNeither ⟨"arn-s", "v2", "createSecret"⟩ =
        ⟨.error .versionNotPending, sNeither, [], 0⟩) ∧
    (sPend.versions.lookup "v2" = some ["AWSPENDING"] ∧
      lambda_handler envEx sPend ⟨"arn-s", "v2", "bogusStep"⟩ =
        ⟨.error (.invalidStep "bogusStep"), sPend, [], 0⟩) :=
  ⟨⟨rfl, (c1_preconditions_in_order envEx sDisabled ⟨"arn-s", "v2", "createSecret"⟩).1 rfl⟩,
   ⟨rfl, (c1_preconditions_in_order envEx sPend ⟨"arn-s", "v9", "createSecret"⟩).2.1 rfl rfl⟩,
   ⟨rfl, (c1_preconditions_in_order envEx sNeither ⟨"arn-s", "v2", "createSecret"⟩).2.2.1
      ["AWSPREVIOUS"] rfl rfl (by decide) (by decide)⟩,
   ⟨rfl, (c1_preconditions_in_order envEx sPend ⟨"arn-s", "v2", "bogusStep"⟩).2.2.2
      ["AWSPENDING"] rfl rfl (by decide) (by decide)
      (by decide) (by decide) (by decide) (by decide)⟩⟩

theorem finish_secret_dispatch {s : SecretState} {tok : String} {stages : List String}
    (hn : (s.versions.map Prod.fst).Nodup)
    (hl : s.versions.lookup tok = some stages)
    (hcur : stages.contains "AWSCURRENT" = false) :
    ∃ cur, finish_secret s tok =
        ⟨.ok (), applyUpdateStage s "AWSCURRENT" tok cur,
          [.updateVersionStage "AWSCURRENT" tok cur], 0⟩ ∧
      cur ≠ some tok ∧
      (∀ c, cur = some c →
        ∃ cs, s.versions.find? (fun p => p.2.contains "AWSCURRENT") = some (c, cs)) ∧
      (cur = none → ∀ p ∈ s.versions, p.2.contains "AWSCURRENT" = false) := by
  unfold finish_secret
  cases hf : s.versions.find? (fun p => p.2.contains "AWSCURRENT") with
  | none =>
    refine ⟨none, rfl, by simp, by simp, ?_⟩
    intro _ p hp
    have := List.find?_eq_none.mp hf p hp
    simpa using this
  | some q =>
    have hq1 : q.1 ≠ tok := by
      intro he
      have hqmem : q ∈ s.versions := List.mem_of_find?_eq_some hf
      have hqc0 := List.find?_some hf
      have hqc : q.2.contains "AWSCURRENT" = true := hqc0
      have hq2 : s.versions.lookup tok = some q.2 := by
        refine mem_lookup_nodup hn ?_
        rw [← he]
        exact hqmem
      rw [hl] at hq2
      injection hq2 with h2
      rw [← h2, hcur] at hqc
      exact Bool.false_ne_true hqc
    have hne : (q.1 == tok) = false := beq_false_of_ne hq1
    refine ⟨some q.1, by simp [hne], by simp [hq1], ?_, by simp⟩
    intro c hc
    injection hc with hc
    exact ⟨q.2, by rw [← hc]⟩

/-- C2: with rotation enabled and the token known, any step invocation on
a token already holding AWSCURRENT is a no-op success leaving the store
untouched; consequently two consecutive finishSecret invocations with
the same token are idempotent — the first promotes the token, the second
is a no-op success with no store mutation. -/
theorem c2_current_noop_and_finish_idempotent :
    (∀ (env : RotEnv) (s : SecretState) (req : Request) (stages : List String),
      s.rotationEnabled = true →
      s.versions.lookup req.clientRequestToken = some stages →
      stages.contains "AWSCURRENT" = true →
      lambda_handler env s req = ⟨.ok (), s, [], 0⟩) ∧
    (∀ (env env₂ : RotEnv) (s : SecretState) (arn arn₂ tok : String) (stages : List String),
      (s.versions.map Prod.fst).Nodup →
      s.rotationEnabled = true →
      s.versions.lookup tok = some stages →
      stages.contains "AWSPENDING" = true →
      stages.contains "AWSCURRENT" = false →
      (lambda_handler env s ⟨arn, tok, "finishSecret"⟩).result = .ok () ∧
      lambda_handler env₂ (lambda_handler env s ⟨arn, tok, "finishSecret"⟩).state
          ⟨arn₂, tok, "finishSecret"⟩ =
        ⟨.ok (), (lambda_handler env s ⟨arn, tok, "finishSecret"⟩).state, [], 0⟩) := by
  have part1 : ∀ (env : RotEnv) (s : SecretState) (req : Request) (stages : List String),
      s.rotationEnabled = true →
      s.versions.lookup req.clientRequestToken = some stages →
      stages.contains "AWSCURRENT" = true →
      lambda_handler env s req = ⟨.ok (), s, [], 0⟩ := by
    intro env s req stages hen hlk hcur
    simp only [lambda_handler, hen, hlk, hcur]
    rfl
  refine ⟨part1, ?_⟩
  intro env env₂ s arn arn₂ tok stages hn hen hlk hpend hcur
  obtain ⟨cur, hfin, hne, _, _⟩ := finish_secret_dispatch hn hlk hcur
  have hdisp : lambda_handler env s ⟨arn, tok, "finishSecret"⟩ = finish_secret s tok := by
    simp only [lambda_handler, hen, hlk, hcur, hpend]
    rfl
  have hupd : updateEntry "AWSCURRENT" tok cur (tok, stages) = addStage "AWSCURRENT" stages := by
    simp [updateEntry]
  have hlk2 : (applyUpdateStage s "AWSCURRENT" tok cur).versions.lookup tok =
      some (addStage "AWSCURRENT" stages) := by
    simp only [applyUpdateStage]
    rw [lookup_map_entry (updateEntry "AWSCURRENT" tok cur) hlk, hupd]
  constructor
  · rw [hdisp, hfin]
  · rw [hdisp, hfin]
    exact part1 env₂ (applyUpdateStage s "AWSCURRENT" tok cur) ⟨arn₂, tok, "finishSecret"⟩
      (addStage "AWSCURRENT" stages) hen hlk2 (addStage_contains _ _)

/-- C2 witness: a no-op success on the AWSCURRENT holder, and a second
finishSecret call on a freshly promoted token being a no-op success. -/
theorem c2_current_noop_and_finish_idempotent_witness :
    (sPend.versions.lookup "v1" = some ["AWSCURRENT"] ∧
      lambda_handler envEx sPend ⟨"arn-s", "v1", "finishSecret"⟩ = ⟨.ok (), sPend, [], 0⟩) ∧
    ((sPend.versions.map Prod.fst).Nodup ∧
      lambda_handler envEx (lambda_handler envEx sPend ⟨"arn-s", "v2", "finishSecret"⟩).state
          ⟨"arn-s", "v2", "finishSecret"⟩ =
        ⟨.ok (), (lambda_handler envEx sPend ⟨"arn-s", "v2", "finishSecret"⟩).state, [], 0⟩) :=
  ⟨⟨rfl, c2_current_noop_and_finish_idempotent.1 envEx sPend ⟨"arn-s", "v1", "finishSecret"⟩
      ["AWSCURRENT"] rfl rfl (by decide)⟩,
   ⟨by decide, (c2_current_noop_and_finish_idempotent.2 envEx envEx sPend "arn-s" "arn-s" "v2"
      ["AWSPENDING"] (by decide) rfl rfl (by decide) (by decide)).2⟩⟩

/-- C3: under the dispatch precondition (token pending, not current),
`finish_secret` locates the AWSCURRENT holder and issues exactly one
store operation — the atomic stage move — after which the token holds
AWSCURRENT, the prior holder does not, and exactly one version holds
AWSCURRENT; there is no intermediate store state, since the whole
transition is the single `update_secret_version_stage` call. -/
theorem c3_finish_atomic_single_current (s : SecretState) (tok : String) (stages : List String)
    (hn : (s.versions.map Prod.fst).Nodup)
    (hl : s.versions.lookup tok = some stages)
    (hpend : stages.contains "AWSPENDING" = true)
    (hcur : stages.contains "AWSCURRENT" = false)
    (hatmost : countCurrent s ≤ 1) :
    ∃ cur,
      finish_secret s tok =
        ⟨.ok (), applyUpdateStage s "AWSCURRENT" tok cur,
          [.updateVersionStage "AWSCURRENT" tok cur], 0⟩ ∧
      (∀ c, cur = some c →
        ∃ cs, s.versions.find? (fun p => p.2.contains "AWSCURRENT") = some (c, cs)) ∧
      (cur = none → ∀ p ∈ s.versions, p.2.contains "AWSCURRENT" = false) ∧
      countCurrent (applyUpdateStage s "AWSCURRENT" tok cur) = 1 ∧
      ∃ stages₂,
        (applyUpdateStage s "AWSCURRENT" tok cur).versions.lookup tok = some stages₂ ∧
        stages₂.contains "AWSCURRENT" = true := by
  obtain ⟨cur, hfin, hne, hsome, hnone⟩ := finish_secret_dispatch hn hl hcur
  refine ⟨cur, hfin, hsome, hnone, ?_, ?_⟩
  · unfold countCurrent applyUpdateStage
    rw [List.countP_map]
    refine countP_eq_one_of_key hn ⟨stages, lookup_mem hl, ?_⟩ ?_
    · show (updateEntry "AWSCURRENT" tok cur (tok, stages)).contains "AWSCURRENT" = true
      unfold updateEntry
      simp only [beq_self_eq_true, if_pos]
      exact addStage_contains _ _
    · intro p hp hqp
      by_cases h1 : p.1 = tok
      · exact h1
      · exfalso
        have hq : (updateEntry "AWSCURRENT" tok cur p).contains "AWSCURRENT" = true := hqp
        unfold updateEntry at hq
        rw [beq_false_of_ne h1, if_neg (by simp)] at hq
        by_cases h2 : cur = some p.1
        · rw [if_pos (by rw [h2]; exact beq_self_eq_true _)] at hq
          rw [filter_ne_not_contains] at hq
          exact Bool.false_ne_true hq
        · rw [if_neg (by rw [beq_false_of_ne h2]; simp)] at hq
          cases hc : cur with
          | none =>
            rw [hnone hc p hp] at hq
            exact Bool.false_ne_true hq
          | some c =>
            obtain ⟨cs, hfind⟩ := hsome c hc
            have hcmem : (c, cs) ∈ s.versions := List.mem_of_find?_eq_some hfind
            have hcc0 := List.find?_some hfind
            have hcc : cs.contains "AWSCURRENT" = true := hcc0
            have hneq : p ≠ (c, cs) := by
              intro heq
              apply h2
              rw [hc, heq]
            have h2le : 2 ≤ s.versions.countP (fun p => p.2.contains "AWSCURRENT") :=
              two_le_countP hp hcmem hneq hq hcc
            unfold countCurrent at hatmost
            omega
  · refine ⟨addStage "AWSCURRENT" stages, ?_, addStage_contains _ _⟩
    simp only [applyUpdateStage]
    rw [lookup_map_entry (updateEntry "AWSCURRENT" tok cur) hl]
    congr 1
    unfold updateEntry
    simp

/-- C3 witness: the atomic promotion observed on the concrete mid-rotation
store. -/
theorem c3_finish_atomic_single_current_witness :
    countCurrent sPend ≤ 1 ∧
    ∃ cur,
      finish_secret sPend "v2" =
        ⟨.ok (), applyUpdateStage sPend "AWSCURRENT" "v2" cur,
          [.updateVersionStage "AWSCURRENT" "v2" cur], 0⟩ ∧
      (∀ c, cur = some c →
        ∃ cs, sPend.versions.find? (fun p => p.2.contains "AWSCURRENT") = some (c, cs)) ∧
      (cur = none → ∀ p ∈ sPend.versions, p.2.contains "AWSCURRENT" = false) ∧
      countCurrent (applyUpdateStage sPend "AWSCURRENT" "v2" cur) = 1 ∧
      ∃ stages₂,
        (applyUpdateStage sPend "AWSCURRENT" "v2" cur).versions.lookup "v2" = some stages₂ ∧
        stages₂.contains "AWSCURRENT" = true :=
  ⟨by decide, c3_finish_atomic_single_current sPend "v2" ["AWSPENDING"] (by decide) rfl
    (by decide) (by decide) (by decide)⟩

/-- C9: when the token holds AWSPENDING and no version at all holds
AWSCURRENT, the finishSecret invocation does not fail — it still issues
the single stage-move store call promoting the token, passing `None` as
the version to remove the stage from. -/
theorem c9_finish_no_current_holder (env : RotEnv) (s : SecretState) (arn tok : String)
    (stages : List String)
    (hen : s.rotationEnabled = true)
    (hl : s.versions.lookup tok = some stages)
    (hpend : stages.contains "AWSPENDING" = true)
    (hnocur : ∀ p ∈ s.versions, p.2.contains "AWSCURRENT" = false) :
    lambda_handler env s ⟨arn, tok, "finishSecret"⟩ =
      ⟨.ok (), applyUpdateStage s "AWSCURRENT" tok none,
        [.updateVersionStage "AWSCURRENT" tok none], 0⟩ := by
  have hcur : stages.contains "AWSCURRENT" = false := hnocur (tok, stages) (lookup_mem hl)
  have hdisp : lambda_handler env s ⟨arn, tok, "finishSecret"⟩ = finish_secret s tok := by
    simp only [lambda_handler, hen, hl, hcur, hpend]
    rfl
  rw [hdisp]
  unfold finish_secret
  rw [List.find?_eq_none.mpr (by intro p hp; rw [hnocur p hp]; simp)]

/-- C9 witness: the promotion with no prior holder on a concrete store. -/
theorem c9_finish_no_current_holder_witness :
    (∀ p ∈ sNoCurrent.versions, p.2.contains "AWSCURRENT" = false) ∧
    lambda_handler envEx sNoCurrent ⟨"arn-s", "v2", "finishSecret"⟩ =
      ⟨.ok (), applyUpdateStage sNoCurrent "AWSCURRENT" "v2" none,
        [.updateVersionStage "AWSCURRENT" "v2" none], 0⟩ :=
  ⟨by decide, c9_finish_no_current_holder envEx sNoCurrent "arn-s" "v2" ["AWSPENDING"]
    rfl rfl (by decide) (by decide)⟩

/-- C10: an invocation whose step is setSecret or testSecret leaves the
secret store exactly as it was — whether the call succeeds or fails, no
store-mutating call is issued and the version/stage mapping and payloads
are unchanged (these steps only read the pending payload). -/
theorem c10_set_test_frame (env : RotEnv) (s : SecretState) (req : Request)
    (hstep : req.step = "setSecret" ∨ req.step = "testSecret") :
    (lambda_handler env s req).state = s ∧ (lambda_handler env s req).ops = [] := by
  unfold lambda_handler
  split
  · exact ⟨rfl, rfl⟩
  · split
    · exact ⟨rfl, rfl⟩
    · split
      · exact ⟨rfl, rfl⟩
      · split
        · exact ⟨rfl, rfl⟩
        · split
          · rename_i hc
            rcases hstep with h | h <;> rw [h] at hc <;> exact absurd hc (by decide)
          · split
            · exact ⟨(set_secret_frame env s req.clientRequestToken).1,
                (set_secret_frame env s req.clientRequestToken).2.1⟩
            · split
              · exact ⟨(test_secret_frame env s req.clientRequestToken).1,
                  (test_secret_frame env s req.clientRequestToken).2.1⟩
              · split
                · rename_i hc
                  rcases hstep with h | h <;> rw [h] at hc <;> exact absurd hc (by decide)
                · exact ⟨rfl, rfl⟩

/-- C10 witness: a setSecret call and a failing testSecret call on the
concrete mid-rotation store, both leaving it unchanged. -/
theorem c10_set_test_frame_witness :
    ((lambda_handler envEx sPend ⟨"arn-s", "v2", "setSecret"⟩).state = sPend ∧
      (lambda_handler envEx sPend ⟨"arn-s", "v2", "setSecret"⟩).ops = []) ∧
    ((lambda_handler ⟨"NewPw1!", true, false, "search.example.com"⟩ sPend
        ⟨"arn-s", "v2", "testSecret"⟩).state = sPend ∧
      (lambda_handler ⟨"NewPw1!", true, false, "search.example.com"⟩ sPend
        ⟨"arn-s", "v2", "testSecret"⟩).ops = []) :=
  ⟨c10_set_test_frame envEx sPend ⟨"arn-s", "v2", "setSecret"⟩ (Or.inl rfl),
   c10_set_test_frame ⟨"NewPw1!", true, false, "search.example.com"⟩ sPend
     ⟨"arn-s", "v2", "testSecret"⟩ (Or.inr rfl)⟩

/-- C5 (amended): the EIP rotation handler publishes exactly one
notification per invocation, on the success path and on every failure
path alike; the credential-rotation handler contains no notification
publish call, so its publish count is zero on every invocation. -/
theorem c5_publish_counts :
    (∀ env : EipEnv, (lambda_handler_eip env).publishes.length = 1) ∧
    (∀ (env : RotEnv) (s : SecretState) (req : Request),
      (lambda_handler env s req).publishes = 0) := by
  constructor
  · intro env
    unfold lambda_handler_eip
    cases h : eipBody env with
    | ok v => rfl
    | error e =>
      cases e with
      | mk e old => rfl
  · exact lambda_handler_publishes

/-- C5 counterexample: a successful setSecret invocation of the
credential-rotation handler performs zero notification publishes, not
one — the secret-rotation source has no publish call. -/
theorem c5_counterexample :
    (lambda_handler envEx sPend ⟨"arn-s", "v2", "setSecret"⟩).result = .ok () ∧
    (lambda_handler envEx sPend ⟨"arn-s", "v2", "setSecret"⟩).publishes ≠ 1 :=
  ⟨rfl, by decide⟩

/-- C6: the EIP rotation handler never raises past its own boundary: it
returns a 200 result or a 500 structured error result; whenever the
failure occurred after the old allocation id was captured, the error
message carries the ACTION REQUIRED manual-cleanup guidance; and when
zero gateways match the tag filter the failure is the
gateway-not-found error. -/
theorem c6_eip_structured_failure (env : EipEnv) :
    ((lambda_handler_eip env).statusCode = 200 ∨ (lambda_handler_eip env).statusCode = 500) ∧
    (∀ e old, eipBody env = .error (e, some old) →
      (lambda_handler_eip env).statusCode = 500 ∧
      ∃ msg, (lambda_handler_eip env).body.lookup "error" = some msg ∧
        strContainsStr msg "ACTION REQUIRED" = true) ∧
    (env.describeRes = .ok [] →
      (lambda_handler_eip env).statusCode = 500 ∧
      (lambda_handler_eip env).body.lookup "error" =
        some ("Failed to rotate EIP: " ++
          ("No NAT Gateway found with tag Name=" ++ env.tagValue))) := by
  refine ⟨?_, ?_, ?_⟩
  · unfold lambda_handler_eip
    cases h : eipBody env with
    | ok v => exact Or.inl rfl
    | error e => cases e with | mk e old => exact Or.inr rfl
  · intro e old hb
    unfold lambda_handler_eip
    rw [hb]
    refine ⟨rfl, eipErrorMessage e (some old), rfl, ?_⟩
    unfold eipErrorMessage strContainsStr
    rw [String.data_append]
    exact charsContain_append_right _ (by decide)
  · intro hd
    have hb : eipBody env = .error
        ("No NAT Gateway found with tag Name=" ++ env.tagValue, none) := by
      unfold eipBody
      rw [hd]
    unfold lambda_handler_eip
    rw [hb]
    exact ⟨rfl, rfl⟩

/-- C6 witness: a mid-sequence failure carrying the cleanup notice, and
the zero-gateway failure. -/
theorem c6_eip_structured_failure_witness :
    (eipBody envEipAssocFail = .error ("associate_address failed", some "eipalloc-old123") ∧
      (lambda_handler_eip envEipAssocFail).statusCode = 500 ∧
      ∃ msg, (lambda_handler_eip envEipAssocFail).body.lookup "error" = some msg ∧
        strContainsStr msg "ACTION REQUIRED" = true) ∧
    (envEipNoGw.describeRes = .ok [] ∧
      (lambda_handler_eip envEipNoGw).statusCode = 500 ∧
      (lambda_handler_eip envEipNoGw).body.lookup "error" =
        some ("Failed to rotate EIP: " ++
          ("No NAT Gateway found with tag Name=" ++ envEipNoGw.tagValue))) :=
  ⟨⟨rfl, (c6_eip_structured_failure envEipAssocFail).2.1 "associate_address failed"
      "eipalloc-old123" rfl⟩,
   ⟨rfl, (c6_eip_structured_failure envEipNoGw).2.2 rfl⟩⟩

theorem boilerMessage_contains_old (gwId newIp newAlloc oldAlloc : String) :
    strContainsStr (boilerSuccessMessage gwId newIp newAlloc oldAlloc) oldAlloc = true := by
  unfold strContainsStr boilerSuccessMessage
  simp only [String.data_append, List.append_assoc]
  repeat
    first
    | exact charsContain_self_append _ _
    | apply charsContain_append_right

/-- C7 counterexample: on a fully successful run, the hardened EIP
handler's success result (its body fields and its published message)
nowhere contains the old allocation id `eipalloc-old123` — the id is
redacted from the message and omitted from the body, so the success
result does not report the dangling allocation's identity. -/
theorem c7_counterexample :
    envEipOk.describeRes = .ok [⟨"nat-12345", [⟨"eni-67890", "eipalloc-old123"⟩]⟩] ∧
    (lambda_handler_eip envEipOk).statusCode = 200 ∧
    (lambda_handler_eip envEipOk).body.all
      (fun kv => !strContainsStr kv.2 "eipalloc-old123") = true ∧
    (lambda_handler_eip envEipOk).publishes.all
      (fun pm => !strContainsStr pm.2 "eipalloc-old123") = true :=
  ⟨rfl, rfl, by decide, by decide⟩

/-- C7 (amended): on every successful run, the boilerplate EIP rotator
reports the old (now dangling) allocation id in its success message —
both in the returned body and in the published notification — while the
hardened handler redacts allocation ids from its success result. -/
theorem c7_boiler_reports_old_allocation (env : EipEnv)
    (gwId newIp oldAlloc newAlloc : String)
    (hok : eipBodyBoiler env = .ok (gwId, newIp, oldAlloc, newAlloc)) :
    (∃ gw rest addr arest, env.describeRes = .ok (gw :: rest) ∧
      gw.addresses = addr :: arest ∧ oldAlloc = addr.allocationId) ∧
    (lambda_handler_boiler env).statusCode = 200 ∧
    ∃ m, (lambda_handler_boiler env).body.lookup "message" = some m ∧
      strContainsStr m oldAlloc = true ∧
      (lambda_handler_boiler env).publishes = [("SUCCESS: NAT Gateway EIP Rotated", m)] := by
  have hshape := hok
  unfold eipBodyBoiler at hshape
  cases hd : env.describeRes with
  | error e => rw [hd] at hshape; exact absurd hshape (by simp)
  | ok gws =>
    rw [hd] at hshape
    dsimp only at hshape
    cases gws with
    | nil => exact absurd hshape (by simp)
    | cons ngw rest =>
      dsimp only at hshape
      cases ha : ngw.addresses with
      | nil => rw [ha] at hshape; exact absurd hshape (by simp)
      | cons addr arest =>
        rw [ha] at hshape
        dsimp only at hshape
        cases hal : env.allocateRes with
        | error e => rw [hal] at hshape; exact absurd hshape (by simp)
        | ok alloc =>
          rw [hal] at hshape
          dsimp only at hshape
          cases has : env.associateRes with
          | error e => rw [has] at hshape; exact absurd hshape (by simp)
          | ok u =>
            rw [has] at hshape
            dsimp only at hshape
            injection hshape with htup
            obtain ⟨h1, h2, h3, h4⟩ : ngw.natGatewayId = gwId ∧ alloc.publicIp = newIp ∧
                addr.allocationId = oldAlloc ∧ alloc.allocationId = newAlloc := by
              simpa [Prod.ext_iff] using htup
            refine ⟨⟨ngw, rest, addr, arest, rfl, ha, h3.symm⟩, ?_, ?_⟩
            · unfold lambda_handler_boiler
              rw [hok]
            · refine ⟨boilerSuccessMessage gwId newIp newAlloc oldAlloc, ?_, ?_, ?_⟩
              · unfold lambda_handler_boiler
                rw [hok]
                rfl
              · exact boilerMessage_contains_old gwId newIp newAlloc oldAlloc
              · unfold lambda_handler_boiler
                rw [hok]

/-- C7 witness: the boilerplate rotator's success message on the
concrete environment reports the old allocation id. -/
theorem c7_boiler_reports_old_allocation_witness :
    eipBodyBoiler envEipOk =
      .ok ("nat-12345", "203.0.113.1", "eipalloc-old123", "eipalloc-new456") ∧
    (lambda_handler_boiler envEipOk).statusCode = 200 ∧
    ∃ m, (lambda_handler_boiler envEipOk).body.lookup "message" = some m ∧
      strContainsStr m "eipalloc-old123" = true ∧
      (lambda_handler_boiler envEipOk).publishes = [("SUCCESS: NAT Gateway EIP Rotated", m)] :=
  ⟨rfl, ((c7_boiler_reports_old_allocation envEipOk "nat-12345" "203.0.113.1"
      "eipalloc-old123" "eipalloc-new456" rfl).2.1),
    ((c7_boiler_reports_old_allocation envEipOk "nat-12345" "203.0.113.1"
      "eipalloc-old123" "eipalloc-new456" rfl).2.2)⟩

theorem randomChoice_mem (l : List Char) (i : Nat) (h : l ≠ []) : randomChoice l i ∈ l := by
  cases l with
  | nil => exact absurd rfl h
  | cons c cs =>
    unfold randomChoice
    exact List.get_mem _ _ _

theorem lower_sub_all : ∀ c ∈ lowerChars, c ∈ allChars := by
  intro c h
  unfold allChars
  exact List.mem_append_left _ (List.mem_append_left _ (List.mem_append_left _ h))

theorem upper_sub_all : ∀ c ∈ upperChars, c ∈ allChars := by
  intro c h
  unfold allChars
  exact List.mem_append_left _ (List.mem_append_left _ (List.mem_append_right _ h))

theorem digit_sub_all : ∀ c ∈ digitChars, c ∈ allChars := by
  intro c h
  unfold allChars
  exact List.mem_append_left _ (List.mem_append_right _ h)

theorem symbol_sub_all : ∀ c ∈ symbolChars, c ∈ allChars := by
  intro c h
  unfold allChars
  exact List.mem_append_right _ h

theorem base_mem_allChars (draws : Nat → Nat) (n : Nat) :
    ∀ c ∈ ([randomChoice lowerChars (draws 0), randomChoice upperChars (draws 1),
        randomChoice digitChars (draws 2), randomChoice symbolChars (draws 3)] ++
        (List.range n).map (fun k => randomChoice allChars (draws (4 + k)))),
      c ∈ allChars := by
  intro c hc
  rcases List.mem_append.mp hc with hs | hm
  · simp only [List.mem_cons, List.mem_singleton] at hs
    rcases hs with h | h | h | h
    · exact h ▸ lower_sub_all _ (randomChoice_mem lowerChars (draws 0) (by decide))
    · exact h ▸ upper_sub_all _ (randomChoice_mem upperChars (draws 1) (by decide))
    · exact h ▸ digit_sub_all _ (randomChoice_mem digitChars (draws 2) (by decide))
    · simp only [List.not_mem_nil, or_false] at h
      exact h ▸ symbol_sub_all _ (randomChoice_mem symbolChars (draws 3) (by decide))
  · obtain ⟨k, _, he⟩ := List.mem_map.mp hm
    exact he ▸ randomChoice_mem allChars (draws (4 + k)) (by decide)

/-- C4: for every requested length of at least 8, the generated password
has exactly that length, contains at least one lowercase letter, one
uppercase letter, one digit and one symbol from the restricted safe set,
and never contains a quote, backslash, at-sign or slash — those
characters being absent from the symbol alphabet itself; for every
length below 8 the generator raises the invalid-length error. -/
theorem c4_password_policy (length : Nat) (draws : Nat → Nat)
    (shuffle : List Char → List Char) (hsh : ∀ l, (shuffle l).Perm l) :
    (length < 8 → generate_complex_password length draws shuffle =
      .error "Password length must be at least 8 characters.") ∧
    (8 ≤ length → ∃ pw, generate_complex_password length draws shuffle = .ok pw ∧
      pw.length = length ∧
      (∃ c ∈ pw, c ∈ lowerChars) ∧ (∃ c ∈ pw, c ∈ upperChars) ∧
      (∃ c ∈ pw, c ∈ digitChars) ∧ (∃ c ∈ pw, c ∈ symbolChars) ∧
      (∀ c ∈ pw, c ≠ '"' ∧ c ≠ '\'' ∧ c ≠ '\\' ∧ c ≠ '@' ∧ c ≠ '/')) ∧
    (∀ c ∈ symbolChars, c ≠ '"' ∧ c ≠ '\'' ∧ c ≠ '\\' ∧ c ≠ '@' ∧ c ≠ '/') := by
  refine ⟨?_, ?_, by decide⟩
  · intro h
    unfold generate_complex_password
    rw [if_pos h]
  · intro h8
    have hnl : ¬ length < 8 := by omega
    unfold generate_complex_password
    rw [if_neg hnl]
    have hp := hsh ([randomChoice lowerChars (draws 0), randomChoice upperChars (draws 1),
      randomChoice digitChars (draws 2), randomChoice symbolChars (draws 3)] ++
      (List.range (length - 4)).map (fun k => randomChoice allChars (draws (4 + k))))
    refine ⟨_, rfl, ?_, ?_, ?_, ?_, ?_, ?_⟩
    · rw [hp.length_eq]
      simp only [List.length_append, List.length_cons, List.length_nil, List.length_map,
        List.length_range]
      omega
    · exact ⟨randomChoice lowerChars (draws 0),
        hp.mem_iff.mpr (List.mem_append_left _ (List.mem_cons_self _ _)),
        randomChoice_mem lowerChars (draws 0) (by decide)⟩
    · exact ⟨randomChoice upperChars (draws 1),
        hp.mem_iff.mpr (List.mem_append_left _
          (List.mem_cons_of_mem _ (List.mem_cons_self _ _))),
        randomChoice_mem upperChars (draws 1) (by decide)⟩
    · exact ⟨randomChoice digitChars (draws 2),
        hp.mem_iff.mpr (List.mem_append_left _
          (List.mem_cons_of_mem _ (List.mem_cons_of_mem _ (List.mem_cons_self _ _)))),
        randomChoice_mem digitChars (draws 2) (by decide)⟩
    · exact ⟨randomChoice symbolChars (draws 3),
        hp.mem_iff.mpr (List.mem_append_left _
          (List.mem_cons_of_mem _ (List.mem_cons_of_mem _
            (List.mem_cons_of_mem _ (List.mem_cons_self _ _))))),
        randomChoice_mem symbolChars (draws 3) (by decide)⟩
    · intro c hc
      have hmem : c ∈ allChars :=
        base_mem_allChars draws (length - 4) c (hp.mem_iff.mp hc)
      have hall : ∀ x ∈ allChars, x ≠ '"' ∧ x ≠ '\'' ∧ x ≠ '\\' ∧ x ≠ '@' ∧ x ≠ '/' := by
        decide
      exact hall c hmem

/-- C4 witness: at length 24 with concrete draws and the identity
shuffle, and at length 7 the invalid-length error. -/
theorem c4_password_policy_witness :
    (∃ pw, generate_complex_password 24 (fun _ => 0) id = .ok pw ∧
      pw.length = 24 ∧
      (∃ c ∈ pw, c ∈ lowerChars) ∧ (∃ c ∈ pw, c ∈ upperChars) ∧
      (∃ c ∈ pw, c ∈ digitChars) ∧ (∃ c ∈ pw, c ∈ symbolChars) ∧
      (∀ c ∈ pw, c ≠ '"' ∧ c ≠ '\'' ∧ c ≠ '\\' ∧ c ≠ '@' ∧ c ≠ '/')) ∧
    generate_complex_password 7 (fun _ => 0) id =
      .error "Password length must be at least 8 characters." :=
  ⟨(c4_password_policy 24 (fun _ => 0) id (fun l => List.Perm.refl l)).2.1 (by omega),
   (c4_password_policy 7 (fun _ => 0) id (fun l => List.Perm.refl l)).1 (by omega)⟩

theorem nestN_dict (n : Nat) : ∃ d, nestN n scrubSampleObj = PyVal.dict d := by
  induction n with
  | zero => exact ⟨_, rfl⟩
  | succ n ih => exact ⟨_, rfl⟩

/-- C8: the EIP handler's sensitive-field scrubber replaces the value of
every key matching the password/secret/key/token/credential/
allocation-id/network-interface-id families with the fixed redaction
marker, keeps non-sensitive non-dict values unchanged, and does so
recursively: the sample object with keys `password`, `allocation_id` and
`public_data` has the first two redacted and the third kept, at every
nesting depth. -/
theorem c8_scrub_sensitive_fields :
    (∀ (fields : List (String × PyVal)) (k : String) (v : PyVal),
      (k, v) ∈ fields → isSensitiveKey eipSensitiveKeys k = true →
      (k, PyVal.str "[REDACTED]") ∈ scrubFields eipSensitiveKeys fields) ∧
    (∀ (fields : List (String × PyVal)) (k : String) (s : String),
      (k, PyVal.str s) ∈ fields → isSensitiveKey eipSensitiveKeys k = false →
      (k, PyVal.str s) ∈ scrubFields eipSensitiveKeys fields) ∧
    (∀ n, scrubVal eipSensitiveKeys (nestN n scrubSampleObj) = nestN n scrubSampleScrubbed) ∧
    (isSensitiveKey eipSensitiveKeys "password" = true ∧
     isSensitiveKey eipSensitiveKeys "allocation_id" = true ∧
     isSensitiveKey eipSensitiveKeys "public_data" = false) := by
  refine ⟨?_, ?_, ?_, by decide, by decide, by decide⟩
  · intro fields k v hmem hsens
    induction fields with
    | nil => simp at hmem
    | cons kv rest ih =>
      rcases List.mem_cons.mp hmem with he | ht
      · rw [show kv = (kv.1, kv.2) from rfl, ← he]
        unfold scrubFields
        rw [if_pos hsens]
        exact List.mem_cons_self _ _
      · rw [show kv = (kv.1, kv.2) from rfl]
        unfold scrubFields
        exact List.mem_cons_of_mem _ (ih ht)
  · intro fields k s hmem hsens
    induction fields with
    | nil => simp at hmem
    | cons kv rest ih =>
      rcases List.mem_cons.mp hmem with he | ht
      · rw [show kv = (kv.1, kv.2) from rfl, ← he]
        unfold scrubFields
        rw [if_neg (by rw [hsens]; simp)]
        exact List.mem_cons_self _ _
      · rw [show kv = (kv.1, kv.2) from rfl]
        unfold scrubFields
        exact List.mem_cons_of_mem _ (ih ht)
  · intro n
    induction n with
    | zero => rfl
    | succ n ih =>
      obtain ⟨d, hd⟩ := nestN_dict n
      show scrubVal eipSensitiveKeys (nestWrap (nestN n scrubSampleObj)) =
        nestWrap (nestN n scrubSampleScrubbed)
      rw [hd]
      have hnested : isSensitiveKey eipSensitiveKeys "nested" = false := by decide
      have hstep : scrubVal eipSensitiveKeys (nestWrap (PyVal.dict d)) =
          nestWrap (scrubVal eipSensitiveKeys (PyVal.dict d)) := by
        simp only [nestWrap, scrubVal, scrubFields, hnested, Bool.false_eq_true, if_false]
      rw [hstep, ← hd, ih]

/-- C8 witness: the scrubber observed on the sample object's fields and
at nesting depth three. -/
theorem c8_scrub_sensitive_fields_witness :
    (("password", PyVal.str "hunter2") ∈
        [("password", PyVal.str "hunter2"), ("allocation_id", PyVal.str "eipalloc-old123"),
         ("public_data", PyVal.str "visible")] ∧
      ("password", PyVal.str "[REDACTED]") ∈
        scrubFields eipSensitiveKeys
          [("password", PyVal.str "hunter2"), ("allocation_id", PyVal.str "eipalloc-old123"),
           ("public_data", PyVal.str "visible")]) ∧
    ("public_data", PyVal.str "visible") ∈
      scrubFields eipSensitiveKeys
        [("password", PyVal.str "hunter2"), ("allocation_id", PyVal.str "eipalloc-old123"),
         ("public_data", PyVal.str "visible")] ∧
    scrubVal eipSensitiveKeys (nestN 3 scrubSampleObj) = nestN 3 scrubSampleScrubbed :=
  ⟨⟨List.mem_cons_self _ _,
    c8_scrub_sensitive_fields.1
      [("password", PyVal.str "hunter2"), ("allocation_id", PyVal.str "eipalloc-old123"),
       ("public_data", PyVal.str "visible")]
      "password" (PyVal.str "hunter2") (List.mem_cons_self _ _) (by decide)⟩,
   c8_scrub_sensitive_fields.2.1
     [("password", PyVal.str "hunter2"), ("allocation_id", PyVal.str "eipalloc-old123"),
      ("public_data", PyVal.str "visible")]
     "public_data" "visible" (by simp) (by decide),
   c8_scrub_sensitive_fields.2.2.1 3⟩
